import Mathlib

/-!
Verification development for the Ledger email client core
(identity derivation, encrypted envelope, P2P inbound handling,
delivery router, DHT put, and the send-message API handler).

Rust strings are modelled as `List Char`, byte buffers as `List Nat`.
Library primitives (ed25519-dalek, x25519-dalek, hkdf, chacha20poly1305,
base64, bs58, serde_json, the OS RNG, uuid and clock) are abstracted as
parameters; the repository functions that compose them are translated
literally from the source.
-/

/-- Byte buffers (Rust `Vec<u8>` / `[u8; n]`); each entry is one byte. -/
abbrev Bytes := List Nat

/-- Rust `String` modelled as a list of characters. -/
abbrev Str := List Char

/-- Byte view of an ASCII string literal (Rust `b"..."`). -/
def strBytes (s : String) : Bytes := s.data.map Char.toNat

/-- Rust `str::starts_with` on the `List Char` model. -/
def strStartsWith : Str → Str → Bool
  | _, [] => true
  | [], _ :: _ => false
  | a :: s, b :: p => a == b && strStartsWith s p

/-- The string literal prefix marking a ledger id (`"ledger:"`). -/
def ledgerTag : Str := "ledger:".data

/-- HKDF salt used for X25519 derivation in `keys.rs` (`b"ledger-x25519"`). -/
def saltLedgerX : Bytes := strBytes "ledger-x25519"

/-- HKDF info used for X25519 derivation in `keys.rs` (`b"encryption-key"`). -/
def infoEncryptionKey : Bytes := strBytes "encryption-key"

/-- HKDF info used for the message key in `envelope.rs` (`b"ledger-message-key"`). -/
def infoMessageKey : Bytes := strBytes "ledger-message-key"

/-- Abstract cryptographic and encoding library primitives used by the
repository (the crates ed25519-dalek, x25519-dalek, hkdf, chacha20poly1305,
base64 and bs58). The repository code is written over these; theorems
assume only the documented correctness facts about them, pointwise at the
values involved. -/
structure Prims where
  b64encode : Bytes → Str
  b64decode : Str → Except Str Bytes
  bs58encode : Bytes → Str
  bs58decode : Str → Except Str Bytes
  edPub : Bytes → Bytes
  edSign : Bytes → Bytes → Bytes
  edVerify : Bytes → Bytes → Bytes → Bool
  edKeyValid : Bytes → Bool
  x25519Pub : Bytes → Bytes
  dh : Bytes → Bytes → Bytes
  hkdf : Option Bytes → Bytes → Bytes → Bytes
  aeadEncrypt : Bytes → Bytes → Bytes → Bytes
  aeadDecrypt : Bytes → Bytes → Bytes → Option Bytes
  utf8Enc : Str → Bytes
  utf8Dec : Bytes → Option Str

/-- Encrypted envelope record (`models/message.rs`, struct `EncryptedEnvelope`).
All binary fields are carried base64-encoded, exactly as on the wire. -/
structure EncryptedEnvelope where
  id : Str
  from_ledger_id : Str
  to_ledger_id : Str
  ephemeral_pubkey : Str
  encrypted_body : Str
  nonce : Str
  signature : Str
  timestamp : Int
  subject_hint : Str
deriving DecidableEq, Repr

/-- Identity record (`crypto/keys.rs`, struct `LedgerIdentity`). The Rust
`SigningKey` is represented by its 32 seed bytes (`to_bytes`). -/
structure LedgerIdentity where
  signing_key : Bytes
  verifying_key : Bytes
  encryption_secret : Bytes
  encryption_public : Bytes
  ledger_id : Str
deriving DecidableEq, Repr

/-- Derivation of an identity from a seed, translated from
`LedgerIdentity::generate` in `keys.rs` (the CSPRNG output is the `seed`
argument): the verifying key comes from the seed; the X25519 secret is
HKDF-SHA256 with salt `b"ledger-x25519"` and info `b"encryption-key"` over
the seed; the ledger id is the string `ledger:` followed by the base58 of
the verifying key. -/
def LedgerIdentity.generate (P : Prims) (seed : Bytes) : LedgerIdentity :=
  let verifying_key := P.edPub seed
  let x25519_bytes := P.hkdf (some saltLedgerX) seed infoEncryptionKey
  let encryption_secret := x25519_bytes
  let encryption_public := P.x25519Pub encryption_secret
  let ledger_id := ledgerTag ++ P.bs58encode verifying_key
  { signing_key := seed, verifying_key, encryption_secret, encryption_public, ledger_id }

/-- Bytes written by `LedgerIdentity::save_to_file`: the Ed25519 seed only. -/
def LedgerIdentity.save_to_file (i : LedgerIdentity) : Bytes :=
  i.signing_key

/-- Translation of `LedgerIdentity::load_from_file` in `keys.rs`: rejects a
file that is not exactly 32 bytes, then re-derives the identity from the
seed with the same HKDF parameters as `generate`. -/
def LedgerIdentity.load_from_file (P : Prims) (seed_bytes : Bytes) :
    Except Str LedgerIdentity :=
  if seed_bytes.length = 32 then
    let signing_key := seed_bytes
    let verifying_key := P.edPub seed_bytes
    let x25519_bytes := P.hkdf (some saltLedgerX) seed_bytes infoEncryptionKey
    let encryption_secret := x25519_bytes
    let encryption_public := P.x25519Pub encryption_secret
    let ledger_id := ledgerTag ++ P.bs58encode verifying_key
    .ok { signing_key, verifying_key, encryption_secret, encryption_public, ledger_id }
  else .error "Invalid identity file: expected 32 bytes".data

/-- Translation of `LedgerIdentity::sign`: a deterministic Ed25519 signature
by the signing key over the data. -/
def LedgerIdentity.sign (P : Prims) (i : LedgerIdentity) (data : Bytes) : Bytes :=
  P.edSign i.signing_key data

/-- Error provenance for the envelope code paths: each constructor stands
for one distinct `return Err` site in `crypto/keys.rs` / `crypto/envelope.rs`. -/
inductive EnvError where
  | b64 (e : Str)
  | b58 (e : Str)
  | badLedgerId
  | badPubkeyLen
  | badKeyParse
  | badSigLen
  | badEphemeralKey
  | badRecipientKeyLen
  | sigVerifyFailed
  | aeadFailed
  | badUtf8
deriving DecidableEq, Repr

/-- Rendering of an envelope error to the message string carried in
`Box<dyn Error>` (used where the node stringifies the error). -/
def renderErr : EnvError → Str
  | .b64 e => "base64 decode error: ".data ++ e
  | .b58 e => "base58 decode error: ".data ++ e
  | .badLedgerId => "Invalid Ledger ID format".data
  | .badPubkeyLen => "Invalid public key length".data
  | .badKeyParse => "signature error: invalid verifying key".data
  | .badSigLen => "Invalid signature length".data
  | .badEphemeralKey => "Invalid ephemeral public key".data
  | .badRecipientKeyLen => "Invalid recipient public key length".data
  | .sigVerifyFailed => "Signature verification failed".data
  | .aeadFailed => "Decryption error".data
  | .badUtf8 => "invalid utf-8 sequence".data

/-- Translation of `LedgerIdentity::verify` in `keys.rs`: the public key
bytes must convert to a 32-byte array and parse as a verifying key, the
signature bytes must convert to a 64-byte array; then the Ed25519
verification result is returned as a boolean. -/
def LedgerIdentity.verify (P : Prims) (pubkey_bytes data signature_bytes : Bytes) :
    Except EnvError Bool :=
  if pubkey_bytes.length = 32 then
    if P.edKeyValid pubkey_bytes then
      if signature_bytes.length = 64 then
        .ok (P.edVerify pubkey_bytes data signature_bytes)
      else .error .badSigLen
    else .error .badKeyParse
  else .error .badPubkeyLen

/-- Translation of `LedgerIdentity::pubkey_from_ledger_id` in `keys.rs`:
strips the `ledger:` tag (error when missing) and base58-decodes the rest. -/
def LedgerIdentity.pubkey_from_ledger_id (P : Prims) (ledger_id : Str) :
    Except EnvError Bytes :=
  if strStartsWith ledger_id ledgerTag then
    match P.bs58decode (ledger_id.drop 7) with
    | .ok bytes => .ok bytes
    | .error e => .error (.b58 e)
  else .error .badLedgerId

/-- Translation of `encrypt_message` in `crypto/envelope.rs`. The OS RNG
outputs (ephemeral X25519 secret and 12-byte nonce), the fresh UUID and the
clock reading are passed as arguments. The recipient public key must be 32
bytes; the symmetric key is HKDF-SHA256 (no salt, info
`b"ledger-message-key"`) over the X25519 shared secret; the plaintext is
sealed with ChaCha20-Poly1305 and the ciphertext is signed with the sender
Ed25519 key; all binary fields are base64-encoded into the envelope, whose
`to_ledger_id` is left empty for the caller to fill. -/
def encrypt_message (P : Prims) (sender : LedgerIdentity)
    (recipient_encryption_pubkey : Bytes) (subject plaintext : Str)
    (ephemeral_secret nonce_bytes : Bytes) (uuid : Str) (now : Int) :
    Except EnvError EncryptedEnvelope :=
  let ephemeral_public := P.x25519Pub ephemeral_secret
  if recipient_encryption_pubkey.length = 32 then
    let shared_secret := P.dh ephemeral_secret recipient_encryption_pubkey
    let sym_key := P.hkdf none shared_secret infoMessageKey
    let ciphertext := P.aeadEncrypt sym_key nonce_bytes (P.utf8Enc plaintext)
    let signature := P.edSign sender.signing_key ciphertext
    .ok { id := uuid
          from_ledger_id := sender.ledger_id
          to_ledger_id := []
          ephemeral_pubkey := P.b64encode ephemeral_public
          encrypted_body := P.b64encode ciphertext
          nonce := P.b64encode nonce_bytes
          signature := P.b64encode signature
          timestamp := now
          subject_hint := subject }
  else .error .badRecipientKeyLen

/-- Execution outcome of Rust code that can panic: either a returned value
or a panic aborting the task. -/
inductive Exec (α : Type) where
  | ret (a : α)
  | panicked
deriving DecidableEq, Repr

/-- Observable milestones inside `decrypt_envelope`, in execution order:
derivation of the symmetric key (X25519 Diffie-Hellman plus HKDF),
invocation of the Ed25519 signature check, and invocation of the AEAD
decryption. -/
inductive Ev where
  | deriveKey
  | verifySig
  | aeadDec
deriving DecidableEq, Repr

/-- Translation of `decrypt_envelope` in `crypto/envelope.rs`, instrumented
with the trace of `Ev` milestones in the exact source order: decode the
ephemeral public key (must be 32 bytes); perform the Diffie-Hellman
exchange with the recipient secret and derive the symmetric key via HKDF;
decode the nonce — `Nonce::from_slice` panics unless it is exactly 12
bytes; decode the ciphertext; recover the sender key from `from_ledger_id`
and verify the signature over the ciphertext; only then attempt the AEAD
decryption and decode the plaintext as UTF-8. -/
def decrypt_envelope (P : Prims) (recipient : LedgerIdentity)
    (envelope : EncryptedEnvelope) : Exec (Except EnvError Str) × List Ev :=
  match P.b64decode envelope.ephemeral_pubkey with
  | .error e => (.ret (.error (.b64 e)), [])
  | .ok ephemeral_bytes =>
    if ephemeral_bytes.length = 32 then
      let shared_secret := P.dh recipient.encryption_secret ephemeral_bytes
      let sym_key := P.hkdf none shared_secret infoMessageKey
      match P.b64decode envelope.nonce with
      | .error e => (.ret (.error (.b64 e)), [.deriveKey])
      | .ok nonce_bytes =>
        if nonce_bytes.length = 12 then
          match P.b64decode envelope.encrypted_body with
          | .error e => (.ret (.error (.b64 e)), [.deriveKey])
          | .ok ciphertext =>
            match LedgerIdentity.pubkey_from_ledger_id P envelope.from_ledger_id with
            | .error e => (.ret (.error e), [.deriveKey])
            | .ok sender_pubkey =>
              match P.b64decode envelope.signature with
              | .error e => (.ret (.error (.b64 e)), [.deriveKey])
              | .ok signature_bytes =>
                match LedgerIdentity.verify P sender_pubkey ciphertext signature_bytes with
                | .error e => (.ret (.error e), [.deriveKey, .verifySig])
                | .ok valid =>
                  if valid then
                    match P.aeadDecrypt sym_key nonce_bytes ciphertext with
                    | none => (.ret (.error .aeadFailed), [.deriveKey, .verifySig, .aeadDec])
                    | some plaintext =>
                      match P.utf8Dec plaintext with
                      | none => (.ret (.error .badUtf8), [.deriveKey, .verifySig, .aeadDec])
                      | some s => (.ret (.ok s), [.deriveKey, .verifySig, .aeadDec])
                  else (.ret (.error .sigVerifyFailed), [.deriveKey, .verifySig])
        else (.panicked, [.deriveKey])
    else (.ret (.error .badEphemeralKey), [])

/-- Delivery method of a locally stored message (`models/message.rs`). -/
inductive DeliveryMethod where
  | P2p
  | Gmail
  | Fallback
deriving DecidableEq, Repr

/-- Folder of a locally stored message (`models/message.rs`). -/
inductive Folder where
  | Inbox
  | Sent
  | Drafts
deriving DecidableEq, Repr

/-- Locally stored message (`models/message.rs`, struct `Message`). -/
structure Message where
  id : Str
  from_id : Str
  to_id : Str
  subject : Str
  body : Str
  timestamp : Int
  delivery_method : DeliveryMethod
  is_read : Bool
  folder : Folder
  signature : Option Str
  encrypted : Bool
deriving DecidableEq, Repr

/-- Wire response of the `/ledger/msg/1.0.0` protocol
(`p2p/protocol.rs`, struct `LedgerResponse`). -/
structure LedgerResponse where
  accepted : Bool
  error : Option Str
deriving DecidableEq, Repr

/-- Store mutation performed by the node on the inbound path. -/
inductive StoreOp where
  | insert (m : Message)
deriving DecidableEq, Repr

/-- Message synthesized by the inbound request arm of `handle_swarm_event`
in `p2p/node.rs` after a successful decryption: Inbox, delivery method
P2P, unread, signature retained, encrypted flag set. -/
def inbound_message (identity : LedgerIdentity) (env : EncryptedEnvelope)
    (plaintext : Str) : Message :=
  { id := env.id
    from_id := env.from_ledger_id
    to_id := identity.ledger_id
    subject := env.subject_hint
    body := plaintext
    timestamp := env.timestamp
    delivery_method := .P2p
    is_read := false
    folder := .Inbox
    signature := some env.signature
    encrypted := true }

/-- Translation of the inbound request arm of `handle_swarm_event` in
`p2p/node.rs`. The serde parse outcome of the request `envelope_json` is
the `parsed` argument and the store insert outcome is `insertResult` (the
insert error is only logged). A parse failure or a decrypt failure answers
`accepted := false` with the error text; a decrypt panic aborts the event
loop task; a successful decryption stores the inbound message and answers
`accepted := true` whatever the insert outcome was. -/
def handle_request (P : Prims) (identity : LedgerIdentity)
    (insertResult : Except Str Unit) (parsed : Except Str EncryptedEnvelope) :
    Exec (LedgerResponse × List StoreOp) :=
  match parsed with
  | .error e => .ret ({ accepted := false, error := some e }, [])
  | .ok env =>
    match decrypt_envelope P identity env with
    | (.panicked, _) => .panicked
    | (.ret (.error e), _) =>
      .ret ({ accepted := false, error := some (renderErr e) }, [])
    | (.ret (.ok plaintext), _) =>
      let msg := inbound_message identity env plaintext
      match insertResult with
      | .error _ => .ret ({ accepted := true, error := none }, [.insert msg])
      | .ok _ => .ret ({ accepted := true, error := none }, [.insert msg])

/-- Kademlia record as assembled by the `DhtPut` arm of `handle_command`
in `p2p/node.rs` (`libp2p::kad::Record`); `expires` holds the absolute
expiry instant in seconds. -/
structure KadRecord where
  key : Bytes
  value : Bytes
  publisher : Option Str
  expires : Option Int
deriving DecidableEq, Repr

/-- A `put_record` call issued to the Kademlia behaviour: the record and
the write quorum. -/
structure DhtPutCall where
  record : KadRecord
  quorum : Nat
deriving DecidableEq, Repr

/-- Translation of the `DhtPut` arm of `handle_command` in `p2p/node.rs`:
the record expiry is the current instant plus the hardcoded
`72 * 3600` seconds, and the write quorum is one. The settings store is
not consulted on this path. -/
def handle_command_dht_put (now : Int) (key value : Bytes) : DhtPutCall :=
  { record := { key, value, publisher := none, expires := some (now + 72 * 3600) }
    quorum := 1 }

/-- Default settings installed by `initialize_tables` in `store/db.rs`:
`delivery_mode=auto`, `tor_enabled=false`, `dht_ttl_hours=72`. -/
def default_settings : List (Str × Str) :=
  [("delivery_mode".data, "auto".data),
   ("tor_enabled".data, "false".data),
   ("dht_ttl_hours".data, "72".data)]

/-- Contact record (`models/message.rs`, struct `Contact`). -/
structure Contact where
  ledger_id : Str
  public_key : Str
  display_name : Option Str
  gmail_address : Option Str
deriving DecidableEq, Repr

/-- Peer info returned by the `GetPeers` command (`models/message.rs`). -/
structure PeerInfo where
  peer_id : Str
  address : Str
  ledger_id : Option Str
deriving DecidableEq, Repr

/-- Tagged delivery outcome (`fallback/router.rs`, enum `DeliveryResult`).
The specification calls the Gmail variants `RelayFallback` / `RelayDirect`. -/
inductive DeliveryResult where
  | P2pDirect
  | DhtStored
  | GmailFallback
  | GmailDirect
  | Failed (reason : Str)
deriving DecidableEq, Repr

/-- Externally visible actions of the router, logged in execution order:
contact lookups, setting reads, envelope encryption, the commands sent for
the P2P node, and SMTP calls. -/
inductive REffect where
  | contactLookup (id : Str)
  | settingRead (k : Str)
  | envelopeBuilt
  | cmdGetPeers
  | cmdSendMessage
  | cmdDhtPut
  | smtpCall
deriving DecidableEq, Repr

/-- Environment of one `route_message` call: the database answers, the
replies of the P2P command channel, the SMTP client results, the serde
serializer, and the nondeterministic inputs (RNG, UUID, clock) consumed by
encryption. Each field models the outcome of the corresponding external
call made by `fallback/router.rs`. -/
structure RouterEnv where
  getContact : Str → Except Str (Option Contact)
  getSetting : Str → Except Str (Option Str)
  getPeersReply : Option (List PeerInfo)
  peerParseOk : Str → Bool
  sendMessageReply : Option (Except Str Unit)
  dhtPutReply : Option (Except Str Unit)
  smtpFallback : Str → Str → Except Str Unit
  smtpSend : Str → Str → Str → Except Str Unit
  serializeEnvelope : EncryptedEnvelope → Except Str Str
  serializePayload : Str → Str → Str → Int → Str
  ephSecret : Bytes
  nonceBytes : Bytes
  uuid : Str
  now : Int

/-- Translation of `store_in_dht` in `dht/store.rs`: serialize the envelope
(the key is `ledger:msg:` plus the recipient ledger id), issue a `DhtPut`
command and wait for its reply; a missing reply is the error
`No response from DHT put`. -/
def store_in_dht (renv : RouterEnv) (envelope : EncryptedEnvelope) :
    Except Str Unit × List REffect :=
  match renv.serializeEnvelope envelope with
  | .error e => (.error ("Serialize error: ".data ++ e), [])
  | .ok _value =>
    match renv.dhtPutReply with
    | none => (.error "No response from DHT put".data, [.cmdDhtPut])
    | some r => (r, [.cmdDhtPut])

/-- Translation of `try_p2p_delivery` in `fallback/router.rs`: look up the
contact, base64-decode its public key, encrypt, fill `to_ledger_id`,
serialize, query `GetPeers`, and send the envelope onward, addressed at the first connected
peer; every failure is a `Failed` result with the source message. -/
def try_p2p_delivery (P : Prims) (renv : RouterEnv) (identity : LedgerIdentity)
    (toAddr subject body : Str) : DeliveryResult × List REffect :=
  match renv.getContact toAddr with
  | .ok (some contact) =>
    match P.b64decode contact.public_key with
    | .error e =>
      (.Failed ("Invalid contact public key: ".data ++ e), [.contactLookup toAddr])
    | .ok recipient_enc_pubkey =>
      match encrypt_message P identity recipient_enc_pubkey subject body
          renv.ephSecret renv.nonceBytes renv.uuid renv.now with
      | .error e =>
        (.Failed ("Encryption failed: ".data ++ renderErr e), [.contactLookup toAddr])
      | .ok env0 =>
        let envelope := { env0 with to_ledger_id := toAddr }
        match renv.serializeEnvelope envelope with
        | .error e =>
          (.Failed ("Serialization failed: ".data ++ e),
           [.contactLookup toAddr, .envelopeBuilt])
        | .ok _envelope_json =>
          match renv.getPeersReply with
          | some peers =>
            match peers with
            | [] =>
              (.Failed "No connected peers".data,
               [.contactLookup toAddr, .envelopeBuilt, .cmdGetPeers])
            | peer0 :: _ =>
              if renv.peerParseOk peer0.peer_id then
                match renv.sendMessageReply with
                | some (.ok _) =>
                  (.P2pDirect,
                   [.contactLookup toAddr, .envelopeBuilt, .cmdGetPeers, .cmdSendMessage])
                | _ =>
                  (.Failed "P2P delivery failed".data,
                   [.contactLookup toAddr, .envelopeBuilt, .cmdGetPeers, .cmdSendMessage])
              else
                (.Failed "P2P delivery failed".data,
                 [.contactLookup toAddr, .envelopeBuilt, .cmdGetPeers])
          | none =>
            (.Failed "P2P delivery failed".data,
             [.contactLookup toAddr, .envelopeBuilt, .cmdGetPeers])
  | _ => (.Failed "Recipient not in contacts".data, [.contactLookup toAddr])

/-- Translation of `try_dht_delivery` in `fallback/router.rs`: look up the
contact, decode its key, encrypt, fill `to_ledger_id`, and hand the
envelope over at `store_in_dht`. -/
def try_dht_delivery (P : Prims) (renv : RouterEnv) (identity : LedgerIdentity)
    (toAddr subject body : Str) : DeliveryResult × List REffect :=
  match renv.getContact toAddr with
  | .ok (some contact) =>
    match P.b64decode contact.public_key with
    | .error _ => (.Failed "Invalid contact public key".data, [.contactLookup toAddr])
    | .ok recipient_enc_pubkey =>
      match encrypt_message P identity recipient_enc_pubkey subject body
          renv.ephSecret renv.nonceBytes renv.uuid renv.now with
      | .error e =>
        (.Failed ("Encryption failed: ".data ++ renderErr e), [.contactLookup toAddr])
      | .ok env0 =>
        let envelope := { env0 with to_ledger_id := toAddr }
        match store_in_dht renv envelope with
        | (.ok _, effs) => (.DhtStored, [.contactLookup toAddr, .envelopeBuilt] ++ effs)
        | (.error e, effs) =>
          (.Failed ("DHT storage failed: ".data ++ e),
           [.contactLookup toAddr, .envelopeBuilt] ++ effs)
  | _ => (.Failed "No contact for DHT delivery".data, [.contactLookup toAddr])

/-- Translation of `try_gmail_delivery` in `fallback/router.rs` (the mail
relay path of the specification): read the relay credentials from settings
(`gmail_email`, `gmail_app_password`), resolve the recipient mail address
(the contact relay address when the recipient is a ledger id, otherwise the
recipient string itself), and either send the BEGIN/END-marked encrypted fallback payload
or a plain mail, depending on `encrypted_fallback`. -/
def try_gmail_delivery (renv : RouterEnv) (identity : LedgerIdentity)
    (toAddr subject body : Str) (encrypted_fallback : Bool) :
    DeliveryResult × List REffect :=
  match renv.getSetting "gmail_email".data with
  | .ok (some _email) =>
    match renv.getSetting "gmail_app_password".data with
    | .ok (some _pw) =>
      let e1 : List REffect :=
        [.settingRead "gmail_email".data, .settingRead "gmail_app_password".data]
      let recipientRes : Except (DeliveryResult × List REffect) (Str × List REffect) :=
        if strStartsWith toAddr ledgerTag then
          match renv.getContact toAddr with
          | .ok (some c) =>
            match c.gmail_address with
            | some addr => .ok (addr, e1 ++ [.contactLookup toAddr])
            | none =>
              .error (.Failed "No Gmail address for Ledger contact".data,
                      e1 ++ [.contactLookup toAddr])
          | _ => .error (.Failed "Contact not found".data, e1 ++ [.contactLookup toAddr])
        else .ok (toAddr, e1)
      match recipientRes with
      | .error r => r
      | .ok (recipient_email, effs) =>
        if encrypted_fallback then
          let payload := renv.serializePayload identity.ledger_id subject body renv.now
          match renv.smtpFallback recipient_email payload with
          | .ok _ => (.GmailFallback, effs ++ [.smtpCall])
          | .error e =>
            (.Failed ("Gmail fallback failed: ".data ++ e), effs ++ [.smtpCall])
        else
          match renv.smtpSend recipient_email subject body with
          | .ok _ => (.GmailDirect, effs ++ [.smtpCall])
          | .error e =>
            (.Failed ("Gmail send failed: ".data ++ e), effs ++ [.smtpCall])
    | _ =>
      (.Failed "Gmail not configured".data,
       [.settingRead "gmail_email".data, .settingRead "gmail_app_password".data])
  | _ => (.Failed "Gmail not configured".data, [.settingRead "gmail_email".data])

/-- Translation of `route_message` in `fallback/router.rs`. The mode
strings are the source literals: `p2p_only`, `gmail_only` (the mode the
specification names relay-only), and the `auto | _` catch-all. In auto
mode with a ledger-id recipient the P2P attempt runs first; unless it
returned `P2pDirect`, the DHT attempt and then the Gmail fallback attempt
both run, and the Gmail fallback result wins over the DHT result, which
wins over `Failed`. -/
def route_message (P : Prims) (renv : RouterEnv) (identity : LedgerIdentity)
    (toAddr subject body : Str) (mode : Str) : DeliveryResult × List REffect :=
  let is_ledger_id := strStartsWith toAddr ledgerTag
  if mode = "p2p_only".data then
    if !is_ledger_id then
      (.Failed "P2P mode requires a Ledger ID recipient".data, [])
    else try_p2p_delivery P renv identity toAddr subject body
  else if mode = "gmail_only".data then
    try_gmail_delivery renv identity toAddr subject body false
  else
    if is_ledger_id then
      match try_p2p_delivery P renv identity toAddr subject body with
      | (.P2pDirect, effs) => (.P2pDirect, effs)
      | (_, p2pEffs) =>
        let dht_result := try_dht_delivery P renv identity toAddr subject body
        let gmail_result := try_gmail_delivery renv identity toAddr subject body true
        match gmail_result.1 with
        | .GmailFallback =>
          (.GmailFallback, p2pEffs ++ dht_result.2 ++ gmail_result.2)
        | _ =>
          match dht_result.1 with
          | .DhtStored => (.DhtStored, p2pEffs ++ dht_result.2 ++ gmail_result.2)
          | _ =>
            (.Failed "All delivery methods failed".data,
             p2pEffs ++ dht_result.2 ++ gmail_result.2)
    else try_gmail_delivery renv identity toAddr subject body false

/-- Preference rule on the final auto-mode outcome, written from the words
of the specification: `RelayFallback` wins if the relay succeeded,
otherwise `DhtStored` if the DHT succeeded, otherwise
`Failed("All delivery methods failed")`. -/
def spec_preference (gmail_result dht_result : DeliveryResult) : DeliveryResult :=
  if gmail_result = .GmailFallback then .GmailFallback
  else if dht_result = .DhtStored then .DhtStored
  else .Failed "All delivery methods failed".data

/-- Request body of `POST /api/messages` (`models/message.rs`,
struct `SendMessageRequest`). -/
structure SendMessageRequest where
  toField : Str
  subject : Str
  body : Str
  mode : Option Str
deriving DecidableEq, Repr

/-- HTTP response of the send-message handler: either the stored message
wrapped as a success, or an internal server error with a reason. -/
inductive HttpResp where
  | okMsg (m : Message)
  | serverError (e : Str)
deriving DecidableEq, Repr

/-- Translation of `send_message` in `api/messages.rs`: resolve the mode
(defaulting the missing field at `auto`), route, map the delivery result
at a `(delivery_method, success)` pair, return an internal server error
when routing failed, and otherwise store exactly one fresh Sent message
(already read, fresh UUID, encrypted exactly when the recipient string
carries the `ledger:` tag) and answer with it; a store failure is only
logged. -/
def send_message (P : Prims) (renv : RouterEnv) (identity : LedgerIdentity)
    (req : SendMessageRequest) (sentUuid : Str) (now : Int) :
    HttpResp × List StoreOp :=
  let mode := match req.mode with | some m => m | none => "auto".data
  let result := (route_message P renv identity req.toField req.subject req.body mode).1
  let pair : DeliveryMethod × Bool :=
    match result with
    | .P2pDirect => (.P2p, true)
    | .DhtStored => (.P2p, true)
    | .GmailFallback => (.Fallback, true)
    | .GmailDirect => (.Gmail, true)
    | .Failed _ => (.P2p, false)
  match pair.2, result with
  | false, .Failed e => (.serverError e, [])
  | _, _ =>
    let msg : Message :=
      { id := sentUuid
        from_id := identity.ledger_id
        to_id := req.toField
        subject := req.subject
        body := req.body
        timestamp := now
        delivery_method := pair.1
        is_read := true
        folder := .Sent
        signature := none
        encrypted := strStartsWith req.toField ledgerTag }
    (.okMsg msg, [.insert msg])

/-- Boolean test for the `Failed` variant of a delivery result. -/
def DeliveryResult.isFailed : DeliveryResult → Bool
  | .Failed _ => true
  | _ => false

/-- Boolean check that an effect list stays inside the mail-relay path:
only setting reads, contact lookups and SMTP calls, never a P2P or DHT
command and never an envelope encryption. -/
def gmailEffectsOnly (effs : List REffect) : Bool :=
  effs.all fun e =>
    match e with
    | .settingRead _ => true
    | .contactLookup _ => true
    | .smtpCall => true
    | _ => false

/-- Concrete toy instantiation of the library primitives, used only to
evaluate the repository model on explicit inputs. Buffers are injected
into characters at distinct offsets so every encode has a matching decode. -/
def toyPrims : Prims :=
  { b64encode := fun l => l.map (fun b => Char.ofNat (b + 256))
    b64decode := fun s => .ok (s.map (fun c => c.toNat - 256))
    bs58encode := fun l => l.map (fun b => Char.ofNat (b + 1024))
    bs58decode := fun s => .ok (s.map (fun c => c.toNat - 1024))
    edPub := fun s => (s ++ List.replicate 32 0).take 32
    edSign := fun s m => (s ++ m ++ List.replicate 64 0).take 64
    edVerify := fun p m sig => sig == (p ++ m ++ List.replicate 64 0).take 64
    edKeyValid := fun _ => true
    x25519Pub := fun s => s
    dh := fun a b => [a.foldl (· + ·) 0 + b.foldl (· + ·) 0]
    hkdf := fun _ ikm _ => ikm
    aeadEncrypt := fun k n m => k ++ n ++ m
    aeadDecrypt := fun k n c =>
      if c.take (k.length + n.length) = k ++ n then
        some (c.drop (k.length + n.length))
      else none
    utf8Enc := fun s => s.map Char.toNat
    utf8Dec := fun l => some (l.map Char.ofNat) }

/-- Concrete sender seed for evaluations. -/
def cSenderSeed : Bytes := List.replicate 32 1

/-- Concrete recipient seed for evaluations. -/
def cRecipSeed : Bytes := List.replicate 32 2

/-- Concrete ephemeral secret for evaluations. -/
def cEphSecret : Bytes := List.replicate 32 3

/-- Concrete 12-byte nonce for evaluations. -/
def cNonce : Bytes := List.replicate 12 0

/-- Concrete sender identity under the toy primitives. -/
def cSender : LedgerIdentity := LedgerIdentity.generate toyPrims cSenderSeed

/-- Concrete recipient identity under the toy primitives. -/
def cRecip : LedgerIdentity := LedgerIdentity.generate toyPrims cRecipSeed

/-- Concrete well-formed envelope from `cSender` at `cRecip`, produced by
the translated `encrypt_message` (with `to_ledger_id` filled the way the
router does). -/
def cGoodEnv : EncryptedEnvelope :=
  match encrypt_message toyPrims cSender cRecip.encryption_public
      "greet".data "Hi".data cEphSecret cNonce "uuid-1".data 1000 with
  | .ok e => { e with to_ledger_id := cRecip.ledger_id }
  | .error _ =>
    { id := [], from_ledger_id := [], to_ledger_id := [], ephemeral_pubkey := []
      encrypted_body := [], nonce := [], signature := [], timestamp := 0
      subject_hint := [] }

/-- Concrete envelope whose signature field was replaced by a wrong but
well-formed 64-byte signature. -/
def cBadSigEnv : EncryptedEnvelope :=
  { cGoodEnv with signature := toyPrims.b64encode (List.replicate 64 5) }

/-- Concrete envelope whose nonce field decodes to 3 bytes instead of 12. -/
def cBadNonceEnv : EncryptedEnvelope :=
  { cGoodEnv with nonce := toyPrims.b64encode [0, 0, 0] }

/-- Concrete router environment in which nothing is configured: no
contacts, no settings, no peers, no replies. -/
def cEnv : RouterEnv :=
  { getContact := fun _ => .ok none
    getSetting := fun _ => .ok none
    getPeersReply := none
    peerParseOk := fun _ => true
    sendMessageReply := none
    dhtPutReply := none
    smtpFallback := fun _ _ => .error "no smtp".data
    smtpSend := fun _ _ _ => .error "no smtp".data
    serializeEnvelope := fun _ => .ok "json".data
    serializePayload := fun _ _ _ _ => "payload".data
    ephSecret := cEphSecret
    nonceBytes := cNonce
    uuid := "uuid-2".data
    now := 1000 }

/-- Concrete router environment in which the mail relay is configured and
every SMTP send succeeds. -/
def cEnvOk : RouterEnv :=
  { cEnv with
    getSetting := fun _ => .ok (some "cfg".data)
    smtpFallback := fun _ _ => .ok ()
    smtpSend := fun _ _ _ => .ok () }

/-- Decidable equality for `Except`, needed to evaluate the model on
concrete inputs. -/
instance {ε α : Type} [DecidableEq ε] [DecidableEq α] : DecidableEq (Except ε α) :=
  fun a b =>
    match a, b with
    | .ok x, .ok y =>
      if h : x = y then isTrue (by rw [h]) else isFalse (fun hh => h (Except.ok.inj hh))
    | .error x, .error y =>
      if h : x = y then isTrue (by rw [h]) else isFalse (fun hh => h (Except.error.inj hh))
    | .ok _, .error _ => isFalse (fun hh => Except.noConfusion hh)
    | .error _, .ok _ => isFalse (fun hh => Except.noConfusion hh)

/-- Helper lemma: a string extended past a literal starts with that literal. -/
theorem strStartsWith_append (p r : Str) : strStartsWith (p ++ r) p = true := by
  induction p with
  | nil => simp [strStartsWith]
  | cons a s ih => simp [strStartsWith, ih]

/-- Helper lemma: dropping the seven characters of the ledger tag from a
tagged string leaves the payload. -/
theorem ledgerTag_drop (x : Str) : (ledgerTag ++ x).drop 7 = x := by
  have h : ledgerTag.length = 7 := by decide
  rw [← h, List.drop_left]

/-- Helper lemma: recovering the public key from a freshly assembled
ledger id reduces at the base58 decode of the payload. -/
theorem pubkey_from_ledger_id_tag (P : Prims) (x : Str)
    (h : P.bs58decode x = .ok (P.edPub x0)) :
    LedgerIdentity.pubkey_from_ledger_id P (ledgerTag ++ x) = .ok (P.edPub x0) := by
  unfold LedgerIdentity.pubkey_from_ledger_id
  rw [strStartsWith_append, ledgerTag_drop, h]
  simp

/-- C1: for every sender identity, recipient identity, subject and body,
decrypting with the recipient the envelope produced by
`encrypt_message(sender, recipient_encryption_public, subject, body)`
succeeds and returns exactly the original body, and the envelope
`subject_hint` equals the given subject. The hypotheses are the documented
correctness facts of the library primitives (base64, base58 and UTF-8
round trips, key sizes, Ed25519 verification of an own signature, X25519
commutativity, AEAD decryption of an own ciphertext), each taken pointwise
at the values this exchange produces. -/
theorem C1_encrypt_decrypt_roundtrip (P : Prims)
    (senderSeed recipSeed ephSecret nonceB : Bytes)
    (subject body uuid : Str) (now : Int)
    (symKey ct sig : Bytes)
    (hsym : symKey = P.hkdf none
      (P.dh ephSecret ((LedgerIdentity.generate P recipSeed).encryption_public))
      infoMessageKey)
    (hct : ct = P.aeadEncrypt symKey nonceB (P.utf8Enc body))
    (hsig : sig = P.edSign senderSeed ct)
    (hRecipLen : ((LedgerIdentity.generate P recipSeed).encryption_public).length = 32)
    (hEphRt : P.b64decode (P.b64encode (P.x25519Pub ephSecret)) = .ok (P.x25519Pub ephSecret))
    (hEphLen : (P.x25519Pub ephSecret).length = 32)
    (hNonceRt : P.b64decode (P.b64encode nonceB) = .ok nonceB)
    (hNonceLen : nonceB.length = 12)
    (hCtRt : P.b64decode (P.b64encode ct) = .ok ct)
    (hB58 : P.bs58decode (P.bs58encode (P.edPub senderSeed)) = .ok (P.edPub senderSeed))
    (hPubLen : (P.edPub senderSeed).length = 32)
    (hKeyValid : P.edKeyValid (P.edPub senderSeed) = true)
    (hSigRt : P.b64decode (P.b64encode sig) = .ok sig)
    (hSigLen : sig.length = 64)
    (hVerify : P.edVerify (P.edPub senderSeed) ct sig = true)
    (hDH : P.dh ((LedgerIdentity.generate P recipSeed).encryption_secret) (P.x25519Pub ephSecret)
      = P.dh ephSecret ((LedgerIdentity.generate P recipSeed).encryption_public))
    (hAead : P.aeadDecrypt symKey nonceB ct = some (P.utf8Enc body))
    (hUtf8 : P.utf8Dec (P.utf8Enc body) = some body) :
    ∃ env,
      encrypt_message P (LedgerIdentity.generate P senderSeed)
        ((LedgerIdentity.generate P recipSeed).encryption_public)
        subject body ephSecret nonceB uuid now = .ok env
      ∧ env.subject_hint = subject
      ∧ (decrypt_envelope P (LedgerIdentity.generate P recipSeed)
          { env with to_ledger_id := (LedgerIdentity.generate P recipSeed).ledger_id }).1
        = .ret (.ok body) := by
  unfold encrypt_message
  rw [if_pos hRecipLen]
  refine ⟨_, rfl, rfl, ?_⟩
  have hled : (LedgerIdentity.generate P senderSeed).ledger_id
      = ledgerTag ++ P.bs58encode (P.edPub senderSeed) := rfl
  unfold decrypt_envelope
  dsimp only
  rw [show (LedgerIdentity.generate P senderSeed).signing_key = senderSeed from rfl]
  rw [← hsym, ← hct, ← hsig, hEphRt]
  dsimp only
  rw [if_pos hEphLen, hNonceRt]
  dsimp only
  rw [if_pos hNonceLen, hCtRt]
  dsimp only
  rw [hled, pubkey_from_ledger_id_tag P _ hB58, hSigRt]
  dsimp only
  rw [hDH, ← hsym]
  unfold LedgerIdentity.verify
  rw [if_pos hPubLen, hKeyValid, if_pos rfl, if_pos hSigLen]
  dsimp only
  rw [if_pos hVerify, hAead]
  dsimp only
  rw [hUtf8]

/-- C1 witness: the round trip evaluated under the toy primitives with
concrete seeds, the subject `greet` and the body `Hi`. -/
theorem C1_roundtrip_witness :
    ∃ env,
      encrypt_message toyPrims (LedgerIdentity.generate toyPrims cSenderSeed)
        ((LedgerIdentity.generate toyPrims cRecipSeed).encryption_public)
        "greet".data "Hi".data cEphSecret cNonce "uuid-1".data 1000 = .ok env
      ∧ env.subject_hint = "greet".data
      ∧ (decrypt_envelope toyPrims (LedgerIdentity.generate toyPrims cRecipSeed)
          { env with to_ledger_id := (LedgerIdentity.generate toyPrims cRecipSeed).ledger_id }).1
        = .ret (.ok "Hi".data) :=
  C1_encrypt_decrypt_roundtrip toyPrims cSenderSeed cRecipSeed cEphSecret cNonce
    "greet".data "Hi".data "uuid-1".data 1000 _ _ _ rfl rfl rfl
    (by decide) (by decide) (by decide) (by decide) (by decide) (by decide)
    (by decide) (by decide) (by decide) (by decide) (by decide) (by decide)
    (by decide) (by decide) (by decide)

/-- Helper lemma: recovering a public key from a ledger id never fails
with the signature-verification error. -/
theorem pubkey_from_ledger_id_no_sig_error (P : Prims) (id : Str) :
    LedgerIdentity.pubkey_from_ledger_id P id ≠ .error .sigVerifyFailed := by
  unfold LedgerIdentity.pubkey_from_ledger_id
  split
  · split <;> simp
  · simp

/-- C2 counterexample: a concrete envelope whose signature is invalid for
which the signature check fails, yet the symmetric key derivation
(X25519 + HKDF) has already been performed — refuting the claim that no
key derivation happens for envelopes with an invalid signature. -/
theorem C2_key_derived_before_sig_counterexample :
    (decrypt_envelope toyPrims cRecip cBadSigEnv).1 = .ret (.error .sigVerifyFailed)
    ∧ Ev.deriveKey ∈ (decrypt_envelope toyPrims cRecip cBadSigEnv).2 := by
  decide

/-- C2 amended: in `decrypt_envelope` the symmetric key is derived before
the signature is verified; the signature over the decoded ciphertext is
verified before any AEAD decryption is attempted, and for every envelope
with an invalid signature no AEAD decryption is performed (the trace is
then exactly derive-key followed by verify-signature). In general the
trace is a prefix of derive-key, verify-signature, AEAD-decrypt. -/
theorem C2_sig_checked_after_derive_before_aead (P : Prims)
    (recipient : LedgerIdentity) (envelope : EncryptedEnvelope) :
    ((decrypt_envelope P recipient envelope).1 = .ret (.error .sigVerifyFailed) →
      (decrypt_envelope P recipient envelope).2 = [.deriveKey, .verifySig])
    ∧ ((decrypt_envelope P recipient envelope).2 = []
      ∨ (decrypt_envelope P recipient envelope).2 = [.deriveKey]
      ∨ (decrypt_envelope P recipient envelope).2 = [.deriveKey, .verifySig]
      ∨ (decrypt_envelope P recipient envelope).2 = [.deriveKey, .verifySig, .aeadDec]) := by
  unfold decrypt_envelope
  repeat' split
  all_goals simp
  · intro hh
    subst hh
    exact pubkey_from_ledger_id_no_sig_error P _ (by assumption)
  · refine ⟨?_, ?_⟩ <;> repeat' split <;> try simp

/-- C2 witness: the amended ordering applied at the concrete bad-signature
envelope. -/
theorem C2_order_witness :
    (decrypt_envelope toyPrims cRecip cBadSigEnv).2 = [.deriveKey, .verifySig] :=
  (C2_sig_checked_after_derive_before_aead toyPrims cRecip cBadSigEnv).1 (by decide)

/-- C3: the inbound handling path does panic on a malformed envelope — a
request whose envelope parses but whose nonce field base64-decodes to 3
bytes aborts the event loop task in `Nonce::from_slice` instead of
answering `accepted := false`. -/
theorem C3_inbound_bad_nonce_panics :
    handle_request toyPrims cRecip (.ok ()) (.ok cBadNonceEnv) = .panicked
    ∧ toyPrims.b64decode cBadNonceEnv.nonce = .ok [0, 0, 0] := by
  decide

/-- C4: on the inbound path, whenever the envelope decrypts successfully
the node answers `accepted := true` with the inbound message stored,
whatever the store insert outcome was — a store failure never changes the
wire response. -/
theorem C4_store_failure_keeps_accept (P : Prims) (identity : LedgerIdentity)
    (envelope : EncryptedEnvelope) (plaintext : Str) (insertResult : Except Str Unit)
    (h : (decrypt_envelope P identity envelope).1 = .ret (.ok plaintext)) :
    handle_request P identity insertResult (.ok envelope)
      = .ret ({ accepted := true, error := none },
              [.insert (inbound_message identity envelope plaintext)]) := by
  rcases hde : decrypt_envelope P identity envelope with ⟨r, tr⟩
  rw [hde] at h
  dsimp only at h
  subst h
  unfold handle_request
  dsimp only
  rw [hde]
  cases insertResult <;> rfl

/-- C4 witness: the concrete good envelope still answers accepted when
the store insert fails. -/
theorem C4_accept_witness :
    handle_request toyPrims cRecip (.error "disk full".data) (.ok cGoodEnv)
      = .ret ({ accepted := true, error := none },
              [.insert (inbound_message cRecip cGoodEnv "Hi".data)]) :=
  C4_store_failure_keeps_accept toyPrims cRecip cGoodEnv "Hi".data
    (.error "disk full".data) (by decide)

/-- C7: every `DhtPut` command creates a record whose expiry is the put
instant plus a hardcoded 72 hours (259200 seconds) with quorum one; the
`dht_ttl_hours` setting (installed with default value 72 by
`initialize_tables`) is not an input of this path, so setting it at 1 does
not make the record expire after 3600 seconds. -/
theorem C7_dht_put_expires_hardcoded (now : Int) (key value : Bytes) :
    (handle_command_dht_put now key value).record.expires = some (now + 72 * 3600)
    ∧ (handle_command_dht_put now key value).quorum = 1
    ∧ ("dht_ttl_hours".data, "72".data) ∈ default_settings
    ∧ (72 : Int) * 3600 = 259200
    ∧ (259200 : Int) ≠ 1 * 3600 := by
  refine ⟨rfl, rfl, by decide, by norm_num, by norm_num⟩

/-- C8: identity derivation is deterministic in the seed — saving the
identity generated from a 32-byte seed and loading it back yields the
identical identity record (same Ed25519 and X25519 public keys, same
X25519 secret, same ledger id), and the X25519 secret is exactly
HKDF-SHA256 with salt `ledger-x25519` and info `encryption-key` over the
seed. -/
theorem C8_identity_deterministic (P : Prims) (seed : Bytes)
    (h : seed.length = 32) :
    LedgerIdentity.load_from_file P
      (LedgerIdentity.save_to_file (LedgerIdentity.generate P seed))
      = .ok (LedgerIdentity.generate P seed)
    ∧ (LedgerIdentity.generate P seed).encryption_secret
        = P.hkdf (some saltLedgerX) seed infoEncryptionKey
    ∧ (LedgerIdentity.generate P seed).verifying_key = P.edPub seed
    ∧ (LedgerIdentity.generate P seed).ledger_id
        = ledgerTag ++ P.bs58encode (P.edPub seed) := by
  refine ⟨?_, rfl, rfl, rfl⟩
  unfold LedgerIdentity.load_from_file LedgerIdentity.save_to_file LedgerIdentity.generate
  dsimp only
  rw [if_pos h]

/-- C8 witness: determinism evaluated at a concrete 32-byte seed under the
toy primitives. -/
theorem C8_identity_witness :
    LedgerIdentity.load_from_file toyPrims
      (LedgerIdentity.save_to_file (LedgerIdentity.generate toyPrims (List.replicate 32 7)))
      = .ok (LedgerIdentity.generate toyPrims (List.replicate 32 7))
    ∧ (LedgerIdentity.generate toyPrims (List.replicate 32 7)).encryption_secret
        = toyPrims.hkdf (some saltLedgerX) (List.replicate 32 7) infoEncryptionKey
    ∧ (LedgerIdentity.generate toyPrims (List.replicate 32 7)).verifying_key
        = toyPrims.edPub (List.replicate 32 7)
    ∧ (LedgerIdentity.generate toyPrims (List.replicate 32 7)).ledger_id
        = ledgerTag ++ toyPrims.bs58encode (toyPrims.edPub (List.replicate 32 7)) :=
  C8_identity_deterministic toyPrims (List.replicate 32 7) (by decide)

/-- C9: in `p2p_only` mode with a recipient that does not carry the
`ledger:` tag, routing fails immediately with the fixed reason and with an
empty effect log — no P2P command is sent, no contact is read, no envelope
is produced. -/
theorem C9_p2p_only_non_ledger_pure_failure (P : Prims) (renv : RouterEnv)
    (identity : LedgerIdentity) (toAddr subject body : Str)
    (h : strStartsWith toAddr ledgerTag = false) :
    route_message P renv identity toAddr subject body "p2p_only".data
      = (.Failed "P2P mode requires a Ledger ID recipient".data, []) := by
  unfold route_message
  dsimp only
  rw [if_pos rfl, h]
  rfl

/-- C9 witness: routing a plain mail address in `p2p_only` mode under the
unconfigured concrete environment. -/
theorem C9_p2p_only_witness :
    route_message toyPrims cEnv cSender "bob@example.com".data
      "s".data "b".data "p2p_only".data
      = (.Failed "P2P mode requires a Ledger ID recipient".data, []) :=
  C9_p2p_only_non_ledger_pure_failure toyPrims cEnv cSender
    "bob@example.com".data "s".data "b".data (by decide)

/-- C6: for every recipient string, routing in the relay-only mode (source
literal `gmail_only`) performs exactly the relay direct attempt — which
itself resolves the contact relay address when the recipient is a ledger
id and uses the plain address otherwise — and returns that attempt result;
its effect log never contains a P2P command, a DHT put, or an envelope
encryption. -/
theorem C6_gmail_only_is_relay_direct (P : Prims) (renv : RouterEnv)
    (identity : LedgerIdentity) (toAddr subject body : Str) :
    route_message P renv identity toAddr subject body "gmail_only".data
      = try_gmail_delivery renv identity toAddr subject body false
    ∧ gmailEffectsOnly
        (try_gmail_delivery renv identity toAddr subject body false).2 = true := by
  constructor
  · unfold route_message
    dsimp only
    rw [if_neg (by decide), if_pos rfl]
  · unfold try_gmail_delivery
    repeat' split
    all_goals simp_all [gmailEffectsOnly]
    all_goals repeat' split
    all_goals simp

/-- C5: in auto mode with a ledger-id recipient, when the P2P attempt does
not return `P2pDirect`, both the DHT attempt and the relay fallback
attempt run (their effect logs both appear, after the P2P log, in the
route log) and the final result follows the specification preference:
the relay fallback wins if it succeeded, otherwise the DHT store if it
succeeded, otherwise `Failed("All delivery methods failed")`. -/
theorem C5_auto_runs_both_and_prefers_relay (P : Prims) (renv : RouterEnv)
    (identity : LedgerIdentity) (toAddr subject body : Str)
    (hledger : strStartsWith toAddr ledgerTag = true)
    (hp2p : (try_p2p_delivery P renv identity toAddr subject body).1 ≠ .P2pDirect) :
    route_message P renv identity toAddr subject body "auto".data
      = (spec_preference
          (try_gmail_delivery renv identity toAddr subject body true).1
          (try_dht_delivery P renv identity toAddr subject body).1,
         (try_p2p_delivery P renv identity toAddr subject body).2
           ++ (try_dht_delivery P renv identity toAddr subject body).2
           ++ (try_gmail_delivery renv identity toAddr subject body true).2) := by
  unfold route_message
  dsimp only
  rw [if_neg (by decide), if_neg (by decide), hledger]
  rcases hp : try_p2p_delivery P renv identity toAddr subject body with ⟨pr, pe⟩
  rw [hp] at hp2p
  dsimp only at hp2p
  rcases hg : try_gmail_delivery renv identity toAddr subject body true with ⟨gr, ge⟩
  rcases hd : try_dht_delivery P renv identity toAddr subject body with ⟨dr, de⟩
  unfold spec_preference
  cases pr <;> first
    | exact absurd rfl hp2p
    | (dsimp only
       cases gr <;> cases dr <;> simp_all)

/-- C5 witness: auto routing evaluated at a ledger-id recipient in the
unconfigured environment, where the P2P attempt fails. -/
theorem C5_auto_witness :
    route_message toyPrims cEnv cSender cRecip.ledger_id "s".data "b".data "auto".data
      = (spec_preference
          (try_gmail_delivery cEnv cSender cRecip.ledger_id "s".data "b".data true).1
          (try_dht_delivery toyPrims cEnv cSender cRecip.ledger_id "s".data "b".data).1,
         (try_p2p_delivery toyPrims cEnv cSender cRecip.ledger_id "s".data "b".data).2
           ++ (try_dht_delivery toyPrims cEnv cSender cRecip.ledger_id "s".data "b".data).2
           ++ (try_gmail_delivery cEnv cSender cRecip.ledger_id "s".data "b".data true).2) :=
  C5_auto_runs_both_and_prefers_relay toyPrims cEnv cSender cRecip.ledger_id
    "s".data "b".data (by decide) (by decide)

/-- C10: the send-message handler is atomic for the Sent folder — when
routing fails it answers an internal server error with the routing reason
and performs no store insert; when routing returns any success variant it
performs exactly one insert, of a message with folder Sent, marked read,
carrying the fresh UUID, addressed at the request recipient, and flagged
encrypted exactly when the recipient string carries the `ledger:` tag. -/
theorem C10_send_message_atomic (P : Prims) (renv : RouterEnv)
    (identity : LedgerIdentity) (req : SendMessageRequest)
    (sentUuid : Str) (now : Int) :
    (∀ e,
      (route_message P renv identity req.toField req.subject req.body
        (match req.mode with | some m => m | none => "auto".data)).1 = .Failed e →
      send_message P renv identity req sentUuid now = (.serverError e, []))
    ∧ ((route_message P renv identity req.toField req.subject req.body
        (match req.mode with | some m => m | none => "auto".data)).1.isFailed = false →
      ∃ m, send_message P renv identity req sentUuid now = (.okMsg m, [.insert m])
        ∧ m.folder = .Sent ∧ m.is_read = true ∧ m.id = sentUuid
        ∧ m.to_id = req.toField
        ∧ m.encrypted = strStartsWith req.toField ledgerTag) := by
  constructor
  · intro e he
    unfold send_message
    dsimp only
    rw [he]
  · intro hnf
    unfold send_message
    dsimp only
    rcases hr : (route_message P renv identity req.toField req.subject req.body
        (match req.mode with | some m => m | none => "auto".data)).1 with _ | _ | _ | _ | e
    all_goals first
      | exact ⟨_, rfl, rfl, rfl, rfl, rfl, rfl⟩
      | (rw [hr] at hnf; exact Bool.noConfusion hnf)

/-- C10 witness: the handler evaluated twice at a concrete request — under
the unconfigured environment routing fails and nothing is stored; under
the configured environment the relay send succeeds and exactly one Sent
message is stored. -/
theorem C10_send_witness :
    send_message toyPrims cEnv cSender
      { toField := "bob@example.com".data, subject := "s".data, body := "b".data,
        mode := some "gmail_only".data } "uuid-3".data 1000
      = (.serverError "Gmail not configured".data, [])
    ∧ ∃ m, send_message toyPrims cEnvOk cSender
        { toField := "bob@example.com".data, subject := "s".data, body := "b".data,
          mode := some "gmail_only".data } "uuid-3".data 1000
        = (.okMsg m, [.insert m])
      ∧ m.folder = .Sent ∧ m.is_read = true ∧ m.id = "uuid-3".data
      ∧ m.to_id = "bob@example.com".data
      ∧ m.encrypted = strStartsWith "bob@example.com".data ledgerTag :=
  ⟨(C10_send_message_atomic toyPrims cEnv cSender
      { toField := "bob@example.com".data, subject := "s".data, body := "b".data,
        mode := some "gmail_only".data } "uuid-3".data 1000).1
      "Gmail not configured".data (by decide),
   (C10_send_message_atomic toyPrims cEnvOk cSender
      { toField := "bob@example.com".data, subject := "s".data, body := "b".data,
        mode := some "gmail_only".data } "uuid-3".data 1000).2 (by decide)⟩
